import Mathlib

/-!
# gtfs-rest: verification of the import pipeline and query server

A shallow embedding of the two programs of this repository:

* `gtfs_import.py` — reads a GTFS zip archive of CSV tables and loads it into
  a relational store (sqlite).  Modelled here by `insert_gtfs_table_rows`
  (one table's CSV stream) and `mainRun` (the whole import command).
* `gtfs_server.py` — serves the store through verb-based routes
  (`list`, `find`, `locate`, `fetch`, `schedule`, …).  Modelled by the
  `route_*` functions below.

Python/sqlite behaviour is translated as follows: machine values are `Nat`,
`Int` and `ℚ`; CSV files are lists of lines, each line a list of cell strings;
a table's stored rows are association lists from column name to value;
a fallible computation returns `Except`; an HTTP handler returns a `Resp`,
whose `jsonError` constructor is the handled `{"error": message}` response and
whose `exception` constructor is an unhandled Python exception (HTTP 500).
-/

namespace GtfsRest

/-! ## Import: table schemas (column names of the CREATE TABLE statements) -/

/-- Column names of `CREATE TABLE agency` in `gtfs_import.py`. -/
def agencyColumns : List String :=
  ["agency_id", "agency_name", "agency_url", "agency_timezone", "agency_lang",
   "agency_phone", "agency_fare_url", "agency_email"]

/-- Column names of `CREATE TABLE stops`. -/
def stopsColumns : List String :=
  ["stop_id", "stop_code", "stop_name", "stop_desc", "stop_lat", "stop_lon",
   "zone_id", "stop_url", "location_type", "parent_station", "stop_timezone",
   "wheelchair_boarding", "level_id", "platform_code"]

/-- Column names of `CREATE TABLE routes`. -/
def routesColumns : List String :=
  ["route_id", "agency_id", "route_short_name", "route_long_name", "route_desc",
   "route_type", "route_url", "route_color", "route_text_color", "route_sort_order"]

/-- Column names of `CREATE TABLE trips`. -/
def tripsColumns : List String :=
  ["route_id", "service_id", "trip_id", "trip_headsign", "trip_short_name",
   "direction_id", "block_id", "shape_id", "wheelchair_accessible", "bikes_allowed"]

/-- Column names of `CREATE TABLE stop_times`. -/
def stopTimesColumns : List String :=
  ["trip_id", "arrival_time", "departure_time", "stop_id", "stop_sequence",
   "stop_headsign", "pickup_type", "drop_off_type", "shape_dist_traveled", "timepoint"]

/-- Column names of `CREATE TABLE calendar`. -/
def calendarColumns : List String :=
  ["service_id", "monday", "tuesday", "wednesday", "thursday", "friday",
   "saturday", "sunday", "start_date", "end_date"]

/-- Column names of `CREATE TABLE calendar_dates`. -/
def calendarDatesColumns : List String :=
  ["service_id", "date", "exception_type"]

/-- Column names of `CREATE TABLE fare_attributes`. -/
def fareAttributesColumns : List String :=
  ["fare_id", "price", "currency_type", "payment_method", "transfers",
   "agency_id", "transfer_duration"]

/-- Column names of `CREATE TABLE fare_rules`. -/
def fareRulesColumns : List String :=
  ["fare_id", "route_id", "origin_id", "destination_id", "contains_id"]

/-- Column names of `CREATE TABLE shapes`. -/
def shapesColumns : List String :=
  ["shape_id", "shape_pt_lat", "shape_pt_lon", "shape_pt_sequence", "shape_dist_traveled"]

/-- Column names of `CREATE TABLE frequencies`. -/
def frequenciesColumns : List String :=
  ["trip_id", "start_time", "end_time", "headway_secs", "exact_times"]

/-- Column names of `CREATE TABLE transfers`. -/
def transfersColumns : List String :=
  ["from_stop_id", "to_stop_id", "transfer_type", "min_transfer_time"]

/-- Column names of `CREATE TABLE pathways`. -/
def pathwaysColumns : List String :=
  ["pathway_id", "from_stop_id", "to_stop_id", "pathway_mode", "is_bidirectional",
   "length", "traversal_time", "stair_count", "max_slope", "min_width",
   "signposted_as", "reversed_signposted_as"]

/-- Column names of `CREATE TABLE levels`. -/
def levelsColumns : List String :=
  ["level_id", "level_index", "level_name"]

/-- Column names of `CREATE TABLE feed_info`. -/
def feedInfoColumns : List String :=
  ["feed_publisher_name", "feed_publisher_url", "feed_lang", "feed_start_date",
   "feed_end_date", "feed_version", "feed_contact_email", "feed_contact_url"]

/-- The `gtfs_table_pairs` list of `main` in `gtfs_import.py`: table name
together with the column names of its CREATE TABLE statement (which is what
`pragma_table_info` yields for `insert_gtfs_table_rows`), in source order. -/
def gtfs_table_pairs : List (String × List String) :=
  [("agency", agencyColumns),
   ("stops", stopsColumns),
   ("routes", routesColumns),
   ("trips", tripsColumns),
   ("stop_times", stopTimesColumns),
   ("calendar", calendarColumns),
   ("calendar_dates", calendarDatesColumns),
   ("fare_attributes", fareAttributesColumns),
   ("fare_rules", fareRulesColumns),
   ("shapes", shapesColumns),
   ("frequencies", frequenciesColumns),
   ("transfers", transfersColumns),
   ("pathways", pathwaysColumns),
   ("levels", levelsColumns),
   ("feed_info", feedInfoColumns)]

/-- `required_gtfs_files` of `main` in `gtfs_import.py`. -/
def required_gtfs_files : List String :=
  ["agency.txt", "stops.txt", "routes.txt", "trips.txt", "stop_times.txt"]

/-! ## Import: one table's CSV stream (`insert_gtfs_table_rows`) -/

/-- `re.sub(r'\W+', '', e)`: strip every character that is not a word
character (letter, digit or underscore) from a header token. -/
def sanitizeColumn (s : String) : String :=
  ⟨s.data.filter (fun c => c.isAlphanum || c == '_')⟩

/-- The header-reconciliation loop of `insert_gtfs_table_rows`:

```text
for column in csv_columns:
    if not column in expected_columns:
        csv_columns.remove(column)
```

Python iterates by an internal index that advances by one each step while the
body may shrink the very list being iterated (`remove` deletes the first
occurrence of the value).  The loop is reproduced positionally: `i` is the
iterator's index into the current state `l` of `csv_columns`. -/
def csvColumnsLoop (expected : List String) (l : List String) (i : Nat) : List String :=
  if h : i < l.length then
    let c := l.get ⟨i, h⟩
    if expected.contains c then
      csvColumnsLoop expected l (i + 1)
    else
      csvColumnsLoop expected (l.erase c) (i + 1)
  else
    l
termination_by l.length - i
decreasing_by
  all_goals
    (try have := List.length_erase_of_mem (l.get_mem i h))
    omega

/-- A stored row: association list from column name to raw cell text. -/
abbrev InsRow := List (String × String)

/-- The row-insertion loop of `insert_gtfs_table_rows`: for each data line,
project the cells at `valid_indices` (an out-of-range index is Python's
`IndexError`), then execute the prepared INSERT naming `sqlCols` (sqlite
raises `OperationalError` if any named column is not in the table schema).
Returns the inserted rows as column-name/value association lists. -/
def insertRowsLoop (sqlCols : List String) (validIndices : List Nat)
    (expected : List String) : List (List String) → Except String (List InsRow)
  | [] => .ok []
  | line :: rest =>
    if validIndices.any (fun i => line.length ≤ i) then
      .error "IndexError"
    else if sqlCols.any (fun c => !expected.contains c) then
      .error "OperationalError"
    else
      match insertRowsLoop sqlCols validIndices expected rest with
      | .error e => .error e
      | .ok rs => .ok ((sqlCols.zip (validIndices.map (fun i => line.getD i ""))) :: rs)

/-- Result of `insert_gtfs_table_rows`: the rows inserted into the table and
the function's return value (`reader.line_num`, the number of CSV lines read,
header included). -/
structure ImportResult where
  inserted : List InsRow
  returned : Nat
  deriving DecidableEq, Repr

/-- `insert_gtfs_table_rows(zipstream, table_name, conn)` of `gtfs_import.py`,
for a table whose schema columns are `expected` and a CSV stream given as a
list of lines of cells.  An empty stream makes `next(reader)` raise
`StopIteration`. -/
def insert_gtfs_table_rows (expected : List String) :
    List (List String) → Except String ImportResult
  | [] => .error "StopIteration"
  | header :: dataLines =>
    let original_columns := header.map sanitizeColumn
    let csv_columns := csvColumnsLoop expected original_columns 0
    let valid_indices := csv_columns.map (fun c => original_columns.indexOf c)
    match insertRowsLoop csv_columns valid_indices expected dataLines with
    | .error e => .error e
    | .ok rows => .ok ⟨rows, dataLines.length + 1⟩

/-! ## Import: the whole command (`main`) -/

/-- A zip archive: member file names with their CSV content (list of lines,
each line a list of cells). -/
structure Archive where
  files : List (String × List (List String))
  deriving DecidableEq, Repr

/-- `gtfs_zip.namelist()`. -/
def Archive.namelist (a : Archive) : List String := a.files.map (·.1)

/-- Content of a member file. -/
def Archive.lookup (a : Archive) (name : String) : Option (List (List String)) :=
  (a.files.find? (·.1 == name)).map (·.2)

/-- The destination store: table name to stored rows. -/
abbrev Store := List (String × List InsRow)

/-- `create_gtfs_table`: drop the table if it exists and create it empty. -/
def create_gtfs_table (s : Store) (t : String) : Store :=
  s.filter (fun p => p.1 ≠ t) ++ [(t, [])]

/-- Append freshly inserted rows to a table of the store. -/
def storeInsert (s : Store) (t : String) (rows : List InsRow) : Store :=
  s.map (fun p => if p.1 = t then (p.1, p.2 ++ rows) else p)

/-- The per-table loop of `main`: drop/recreate each table, and if the
archive has the table's file, insert its rows; an insertion exception
propagates (aborting the command). -/
def importTablesLoop (a : Archive) : List (String × List String) → Store → Except String Store
  | [], s => .ok s
  | (t, cols) :: rest, s =>
    let s1 := create_gtfs_table s t
    match a.lookup (t ++ ".txt") with
    | none => importTablesLoop a rest s1
    | some lines =>
      match insert_gtfs_table_rows cols lines with
      | .error e => .error e
      | .ok r => importTablesLoop a rest (storeInsert s1 t r.inserted)

/-- `main()` of `gtfs_import.py`, after the archive has been opened
successfully: validate that the five mandatory files are present (returning 1
before touching any table if one is missing), then create all fifteen tables
and load each table whose file the archive contains.  The result is `main`'s
return value together with the final store; `.error` is an uncaught Python
exception. -/
def mainRun (a : Archive) (s : Store) : Except String (Int × Store) :=
  if required_gtfs_files.all (fun f => a.namelist.contains f) then
    match importTablesLoop a gtfs_table_pairs s with
    | .error e => .error e
    | .ok s' => .ok (0, s')
  else
    .ok (1, s)

/-- The `if __name__ == '__main__': main()` guard of `gtfs_import.py`:
`main()`'s return value is discarded, so the interpreter exits 0 whenever
`main` returns (any uncaught exception exits non-zero). -/
def scriptExitCode (a : Archive) (s : Store) : Nat :=
  match mainRun a s with
  | .ok _ => 0
  | .error _ => 1

/-! ## Server: responses, registries and parameter handling (`gtfs_server.py`) -/

/-- Outcome of an HTTP handler.  `ok` is a successful JSON response;
`jsonError m` is the handled-exception path (`APIError`/`ParamError` caught by
`handle_error`, yielding the JSON object `{"error": m}`); `exception m` is an
unhandled Python exception (HTTP 500, no JSON body). -/
inductive Resp (α : Type) where
  | ok : α → Resp α
  | jsonError : String → Resp α
  | exception : String → Resp α
  deriving DecidableEq, Repr

/-- The `VERBS` dict of `gtfs_server.py`: each GTFS table with its supported
API verbs. -/
def VERBS : List (String × List String) :=
  [("agency", ["id", "list"]),
   ("stops", ["id", "list", "find", "locate"]),
   ("routes", ["id", "list", "find"]),
   ("trips", ["id"]),
   ("stop_times", ["list", "find", "schedule"]),
   ("calendar", ["fetch"]),
   ("calendar_dates", ["fetch"]),
   ("fare_attributes", ["id", "list"]),
   ("fare_rules", ["list"]),
   ("shapes", ["list", "find"]),
   ("frequencies", ["list"]),
   ("transfers", ["list"]),
   ("pathways", ["id", "list"]),
   ("levels", ["id", "list"]),
   ("feed_info", ["fetch"])]

/-- `TABLES = VERBS.keys()`. -/
def TABLES : List String := VERBS.map (·.1)

/-- `VERBS[table]` (meaningful only after a `table in TABLES` assertion). -/
def verbsOf (t : String) : List String :=
  ((VERBS.find? (·.1 == t)).map (·.2)).getD []

/-- The `SEARCH_FIELDS` dict: the columns searched by the `find` verb. -/
def SEARCH_FIELDS : List (String × List String) :=
  [("stops", ["stop_name", "stop_desc"]),
   ("routes", ["route_desc", "route_long_name", "route_short_name"]),
   ("stop_times", ["stop_headsign"]),
   ("shapes", ["shape_id"])]

/-- `Error.NO_TABLE`. -/
def NO_TABLE : String := "Table does not exist"

/-- `Error.NO_VERB`. -/
def NO_VERB : String := "Verb not supported"

/-- `Error.NO_PARAM(p)`. -/
def NO_PARAM (p : String) : String := "Missing required parameter: " ++ p

/-- Python's `int(str)`: optional surrounding whitespace, an optional sign,
then a non-empty run of digits; anything else raises `ValueError`. -/
def parsePyInt (s : String) : Option Int :=
  let ws : Char → Bool := fun c => c == ' ' || c == '\t' || c == '\n' || c == '\r'
  let cs := (((s.data.dropWhile ws).reverse.dropWhile ws).reverse)
  let digitsVal : List Char → Option Nat := fun ds =>
    if ds ≠ [] && ds.all Char.isDigit then
      some (ds.foldl (fun a c => 10 * a + (c.toNat - 48)) 0)
    else
      none
  match cs with
  | '+' :: ds => (digitsVal ds).map (fun n => (n : Int))
  | '-' :: ds => (digitsVal ds).map (fun n => -(n : Int))
  | ds => (digitsVal ds).map (fun n => (n : Int))

/-- `max(lower, min(value, upper))`, with `upper = none` standing for the
`float("+inf")` bound (under which `min` returns the integer unchanged). -/
def pyClamp (lower : Int) (upper : Option Int) (v : Int) : Int :=
  max lower (match upper with | some u => min v u | none => v)

/-- `get_param_numeric(key, int, lower, upper, default)`: an absent parameter
falls back to the integer default (which is also clamped); a present
parameter is parsed with `int`, a parse failure raising `ParamError`. -/
def get_param_numeric (arg : Option String) (lower : Int) (upper : Option Int)
    (default : Int) : Except String Int :=
  match arg with
  | none => .ok (pyClamp lower upper default)
  | some s =>
    match parsePyInt s with
    | none => .error "Invalid parameter value"
    | some v => .ok (pyClamp lower upper v)

/-- `get_list_params()`: `count` clamped to `[0, MAX_PAGE_SIZE]` with default
25, `page` clamped to `[0, +inf)` with default 0. -/
def get_list_params (maxPageSize : Int) (countArg pageArg : Option String) :
    Except String (Int × Int) :=
  match get_param_numeric countArg 0 (some maxPageSize) 25 with
  | .error e => .error e
  | .ok count =>
    match get_param_numeric pageArg 0 none 0 with
    | .error e => .error e
    | .ok page => .ok (count, page)

/-- A result row of a generic query: column name to value. -/
abbrev GRow := List (String × String)

/-- A generic read-only view of the store: the rows `SELECT * FROM t` yields. -/
abbrev TableView := String → List GRow

/-- `LIMIT :limit OFFSET :offset` applied to a scan, with
`limit = count`, `offset = page * count` (both non-negative here, being
clamped). -/
def paginate (rows : List GRow) (count page : Int) : List GRow :=
  (rows.drop (page * count).toNat).take count.toNat

/-- sqlite named-parameter binding: executing a statement whose text
references `required` placeholders with a `provided` parameter set raises
`ProgrammingError` when some placeholder has no binding. -/
def execBindings {α : Type} (required provided : List String) (result : α) :
    Except String α :=
  if required.all (fun p => provided.contains p) then
    .ok result
  else
    .error "ProgrammingError: missing binding"

/-- `route_list(table)`: table and verb assertions, `get_list_params`, then
`SELECT * FROM {table} LIMIT :limit OFFSET :offset` with
`{"limit": count, "offset": page * count}`. -/
def route_list (maxPageSize : Int) (store : TableView) (table : String)
    (countArg pageArg : Option String) : Resp (List GRow) :=
  if table ∈ TABLES then
    if "list" ∈ verbsOf table then
      match get_list_params maxPageSize countArg pageArg with
      | .error e => .jsonError e
      | .ok (count, page) =>
        match execBindings ["limit", "offset"] ["limit", "offset"]
            (paginate (store table) count page) with
        | .error e => .exception e
        | .ok rows => .ok rows
    else
      .jsonError NO_VERB
  else
    .jsonError NO_TABLE

/-- `CursorListAdapter.__getitem__(n)` for `n = 0` on the rows remaining in a
cursor: `dict(self.cursor.fetchone())`, which raises `TypeError` when the
cursor is exhausted (`fetchone()` returns `None`). -/
def cursorGetFirst (rows : List GRow) : Except String GRow :=
  match rows with
  | [] => .error "TypeError"
  | r :: _ => .ok r

/-- `route_fetch(table)`: table and verb assertions, then
`sql_query(f"SELECT * FROM {table}", db)[0]`. -/
def route_fetch (store : TableView) (table : String) : Resp GRow :=
  if table ∈ TABLES then
    if "fetch" ∈ verbsOf table then
      match cursorGetFirst (store table) with
      | .error e => .exception e
      | .ok r => .ok r
    else
      .jsonError NO_VERB
  else
    .jsonError NO_TABLE

/-! ## Server: `find` -/

/-- Contiguous-substring test on character lists: some suffix of `hay`
starts with `needle`. -/
def containsSub (hay needle : List Char) : Bool :=
  (List.range (hay.length + 1)).any (fun i => needle.isPrefixOf (hay.drop i))

/-- `value LIKE '%'||term||'%'` in sqlite: case-insensitive (ASCII)
substring containment; a NULL column value never matches. -/
def likeContains (term : String) (value : Option String) : Bool :=
  match value with
  | none => false
  | some v => containsSub (v.data.map Char.toLower) (term.data.map Char.toLower)

/-- Value of column `c` in a generic row (`none` = NULL/absent). -/
def rowValue (r : GRow) (c : String) : Option String :=
  (r.find? (·.1 == c)).map (·.2)

/-- The rows the `find` SQL would return if its parameters were bound:
rows where some searchable column LIKE-matches the term, paginated. -/
def findRows (rows : List GRow) (fields : List String) (search : String)
    (count page : Int) : List GRow :=
  paginate (rows.filter (fun r => fields.any (fun f => likeContains search (rowValue r f))))
    count page

/-- `route_find(table, search)` of `gtfs_server.py`.  After the table/verb
assertions and `SEARCH_FIELDS[table]` (a missing key would be an uncaught
`KeyError`), the SQL text is

`SELECT * FROM {table} WHERE {sf} LIKE '%'||:search||'%' OR ... LIMIT :limit OFFSET :page`

— referencing the placeholders `:search`, `:limit` and `:page` — while the
parameters supplied to `sql_query` are `{"limit": count, "offset": page *
count, "search": search}`. -/
def route_find (maxPageSize : Int) (store : TableView) (table search : String)
    (countArg pageArg : Option String) : Resp (List GRow) :=
  if table ∈ TABLES then
    if "find" ∈ verbsOf table then
      match (SEARCH_FIELDS.find? (·.1 == table)).map (·.2) with
      | none => .exception "KeyError"
      | some fields =>
        match get_list_params maxPageSize countArg pageArg with
        | .error e => .jsonError e
        | .ok (count, page) =>
          match execBindings (fields.map (fun _ => "search") ++ ["limit", "page"])
              ["limit", "offset", "search"]
              (findRows (store table) fields search count page) with
          | .error e => .exception e
          | .ok rows => .ok rows
    else
      .jsonError NO_VERB
  else
    .jsonError NO_TABLE

/-! ## Server: `locate` -/

/-- A stored stop, with the columns the `locate` route compares.  sqlite
REAL values are modelled as rationals. -/
structure Stop where
  stop_id : String
  stop_lat : ℚ
  stop_lon : ℚ
  deriving DecidableEq, Repr

/-- The latitude clamp of `get_locate_params`: `max(-90.0, min(v, 90.0))`. -/
def clampLat (v : ℚ) : ℚ := max (-90) (min v 90)

/-- The longitude clamp of `get_locate_params`: `max(-180.0, min(v, 180.0))`. -/
def clampLon (v : ℚ) : ℚ := max (-180) (min v 180)

/-- The WHERE clause of `route_stops_locate`, on the clamped edges:
`stop_lat < :high_lat AND stop_lat > :low_lat AND stop_lon < :high_lon AND
stop_lon > :low_lon` (all four strict). -/
def inBox (highLat lowLat highLon lowLon : ℚ) (s : Stop) : Bool :=
  decide (s.stop_lat < highLat) && decide (s.stop_lat > lowLat) &&
  decide (s.stop_lon < highLon) && decide (s.stop_lon > lowLon)

/-- `route_stops_locate()`: assert the four edge parameters are present (in
source order), clamp them (`get_locate_params`), read `count`/`page`
(`get_list_params`), then run the bounding-box query with
`LIMIT count OFFSET page * count`. -/
def route_stops_locate (maxPageSize : Int) (stops : List Stop)
    (highLatArg lowLatArg highLonArg lowLonArg : Option ℚ)
    (countArg pageArg : Option String) : Resp (List Stop) :=
  match highLatArg with
  | none => .jsonError (NO_PARAM "high_lat")
  | some hla =>
    match lowLatArg with
    | none => .jsonError (NO_PARAM "low_lat")
    | some lla =>
      match highLonArg with
      | none => .jsonError (NO_PARAM "high_lon")
      | some hlo =>
        match lowLonArg with
        | none => .jsonError (NO_PARAM "low_lon")
        | some llo =>
          match get_list_params maxPageSize countArg pageArg with
          | .error e => .jsonError e
          | .ok (count, page) =>
            let filtered := stops.filter
              (inBox (clampLat hla) (clampLat lla) (clampLon hlo) (clampLon llo))
            .ok ((filtered.drop (page * count).toNat).take count.toNat)

/-! ## Server: dates and `strptime('%Y%m%d')`

`route_schedule` parses its `date` parameter with
`time.strptime(yyyymmdd, '%Y%m%d')` and uses the `tm_wday` field (Monday =
0).  CPython's `_strptime` matches `%Y` as four digits, `%m` by the regex
alternation `1[0-2]|0[1-9]|[1-9]` and `%d` by `3[01]|[12]\d|0[1-9]|[1-9]`
(first alternative wins, backtracking from `%m` when no `%d` alternative
matches); it then requires the match to cover the whole string, and raises
`ValueError` when `datetime.date(year, month, day)` rejects the triple. -/

/-- Proleptic-Gregorian leap year. -/
def isLeap (y : Nat) : Bool :=
  y % 4 == 0 && (y % 100 != 0 || y % 400 == 0)

/-- Days in a month of a given year. -/
def daysInMonth (y m : Nat) : Nat :=
  if m = 2 then (if isLeap y then 29 else 28)
  else if m = 4 ∨ m = 6 ∨ m = 9 ∨ m = 11 then 30
  else 31

/-- Days in the year strictly before month `m`. -/
def daysBeforeMonth (y m : Nat) : Nat :=
  (List.range (m - 1)).foldl (fun acc i => acc + daysInMonth y (i + 1)) 0

/-- `datetime.date(y, m, d).toordinal()`: day number with 0001-01-01 as 1. -/
def toOrdinal (y m d : Nat) : Nat :=
  365 * (y - 1) + (y - 1) / 4 - (y - 1) / 100 + (y - 1) / 400
    + daysBeforeMonth y m + d

/-- `tm_wday`: weekday with Monday = 0 (0001-01-01 is a Monday). -/
def tm_wday (y m d : Nat) : Nat :=
  (toOrdinal y m d + 6) % 7

/-- Numeric value of a digit character. -/
def digitVal (c : Char) : Nat := c.toNat - 48

/-- Numeric value of a digit string. -/
def digitsToNat (cs : List Char) : Nat :=
  cs.foldl (fun a c => 10 * a + digitVal c) 0

/-- The `%m` alternatives `1[0-2]`, `0[1-9]`, `[1-9]`, in regex order; each
yields the month value and the remaining characters. -/
def monthMatches : List Char → List (Nat × List Char)
  | c1 :: c2 :: rest =>
    (if c1 = '1' ∧ ('0' ≤ c2 ∧ c2 ≤ '2') then [(10 + digitVal c2, rest)] else []) ++
    (if c1 = '0' ∧ ('1' ≤ c2 ∧ c2 ≤ '9') then [(digitVal c2, rest)] else []) ++
    (if '1' ≤ c1 ∧ c1 ≤ '9' then [(digitVal c1, c2 :: rest)] else [])
  | [c1] =>
    if '1' ≤ c1 ∧ c1 ≤ '9' then [(digitVal c1, [])] else []
  | [] => []

/-- The `%d` alternatives `3[01]`, `[12]\d`, `0[1-9]`, `[1-9]`, in regex
order. -/
def dayMatches : List Char → List (Nat × List Char)
  | c1 :: c2 :: rest =>
    (if c1 = '3' ∧ ('0' ≤ c2 ∧ c2 ≤ '1') then [(30 + digitVal c2, rest)] else []) ++
    (if ('1' ≤ c1 ∧ c1 ≤ '2') ∧ c2.isDigit then [(10 * digitVal c1 + digitVal c2, rest)] else []) ++
    (if c1 = '0' ∧ ('1' ≤ c2 ∧ c2 ≤ '9') then [(digitVal c2, rest)] else []) ++
    (if '1' ≤ c1 ∧ c1 ≤ '9' then [(digitVal c1, c2 :: rest)] else [])
  | [c1] =>
    if '1' ≤ c1 ∧ c1 ≤ '9' then [(digitVal c1, [])] else []
  | [] => []

/-- `time.strptime(s, '%Y%m%d')`, returning the `(year, month, day)` triple
or `none` for `ValueError`: four year digits, the first
month/day alternative pair the backtracking regex engine finds, a full-length
match, and a triple `datetime.date` accepts. -/
def pyStrptimeYmd (cs : List Char) : Option (Nat × Nat × Nat) :=
  match cs with
  | y1 :: y2 :: y3 :: y4 :: rest =>
    if (y1.isDigit && y2.isDigit && y3.isDigit && y4.isDigit) then
      let y := digitsToNat [y1, y2, y3, y4]
      match (monthMatches rest).findSome?
          (fun mr => ((dayMatches mr.2).head?).map (fun dr => (mr.1, dr.1, dr.2))) with
      | none => none
      | some (m, d, remaining) =>
        if remaining = [] then
          if 1 ≤ y ∧ 1 ≤ d ∧ d ≤ daysInMonth y m then some (y, m, d) else none
        else
          none
    else
      none
  | _ => none

/-- `yyyymmdd.replace('-', '')`. -/
def stripDashes (s : String) : String :=
  ⟨s.data.filter (fun c => c != '-')⟩

/-- The weekday column names of the `calendar` table, indexed by `tm_wday`. -/
def weekdayNames : List String :=
  ["monday", "tuesday", "wednesday", "thursday", "friday", "saturday", "sunday"]

/-! ## Server: schedule query data model

The `calendar` and `calendar_dates` columns typed `DATE` get sqlite NUMERIC
affinity, so the compact `YYYYMMDD` strings of a GTFS feed are stored as
integers and the TEXT `:yyyymmdd` parameter is converted to an integer before
comparison; dates in these rows are therefore modelled as `Nat`. -/

/-- A row of `calendar`. -/
structure CalendarRow where
  service_id : String
  monday : Nat
  tuesday : Nat
  wednesday : Nat
  thursday : Nat
  friday : Nat
  saturday : Nat
  sunday : Nat
  start_date : Nat
  end_date : Nat
  deriving DecidableEq, Repr

/-- The weekday-flag column of a `calendar` row selected by
`'{0}'.format(weekday)` with `weekday = weekdayNames[tm_wday]`. -/
def CalendarRow.flag (c : CalendarRow) (w : Nat) : Nat :=
  match w with
  | 0 => c.monday
  | 1 => c.tuesday
  | 2 => c.wednesday
  | 3 => c.thursday
  | 4 => c.friday
  | 5 => c.saturday
  | _ => c.sunday

/-- A row of `calendar_dates`. -/
structure CalendarDateRow where
  service_id : String
  date : Nat
  exception_type : Nat
  deriving DecidableEq, Repr

/-- A row of `trips` (the columns the schedule query reads). -/
structure TripRow where
  route_id : String
  service_id : String
  trip_id : String
  trip_headsign : String
  deriving DecidableEq, Repr

/-- A row of `stop_times` (the columns the schedule query reads). -/
structure StopTimeRow where
  trip_id : String
  arrival_time : String
  stop_id : String
  deriving DecidableEq, Repr

/-- A row of `routes` (the columns the schedule query reads). -/
structure RouteRow where
  route_id : String
  route_short_name : String
  route_long_name : String
  deriving DecidableEq, Repr

/-- The tables the schedule query joins. -/
structure ScheduleDB where
  calendar : List CalendarRow
  calendar_dates : List CalendarDateRow
  trips : List TripRow
  stop_times : List StopTimeRow
  routes : List RouteRow
  deriving Repr

/-- A result row of the schedule query. -/
structure ScheduleResultRow where
  arrival_time : String
  trip_headsign : String
  route_short_name : String
  route_long_name : String
  deriving DecidableEq, Repr

/-- The `service_id IN (...)` subquery of `route_schedule`, for request date
`dNum` (the stripped date string under numeric affinity) falling on weekday
`w`:

```sql
SELECT c.service_id FROM calendar c
WHERE c.end_date > :yyyymmdd
  AND c.{weekday} = 1
  AND NOT :yyyymmdd IN (SELECT date FROM calendar_dates cd WHERE cd.exception_type = 2)
UNION
SELECT service_id FROM calendar_dates WHERE date = :yyyymmdd AND exception_type = 1
```
-/
def activeServiceIds (db : ScheduleDB) (dNum w : Nat) : List String :=
  (db.calendar.filter (fun c =>
      decide (c.end_date > dNum) && c.flag w == 1 &&
      !(db.calendar_dates.any (fun cd => cd.exception_type == 2 && cd.date == dNum)))).map
    (·.service_id)
  ++ (db.calendar_dates.filter (fun cd => cd.date == dNum && cd.exception_type == 1)).map
    (·.service_id)

/-- Insertion sort by arrival time (`ORDER BY st.arrival_time`). -/
def insertByArrival (r : ScheduleResultRow) :
    List ScheduleResultRow → List ScheduleResultRow
  | [] => [r]
  | x :: xs =>
    if r.arrival_time ≤ x.arrival_time then r :: x :: xs
    else x :: insertByArrival r xs

/-- Sort schedule rows by arrival time. -/
def sortByArrival (rows : List ScheduleResultRow) : List ScheduleResultRow :=
  rows.foldr insertByArrival []

/-- The body of the schedule query: join `stop_times` with `trips` and
`routes`, keep the rows at the requested stop whose trip's service is in
`activeServiceIds`, return the four selected columns ordered by arrival
time. -/
def scheduleQuery (db : ScheduleDB) (stopId : String) (dNum w : Nat) :
    List ScheduleResultRow :=
  sortByArrival
    (db.stop_times.flatMap (fun st =>
      if st.stop_id == stopId then
        db.trips.flatMap (fun t =>
          if st.trip_id == t.trip_id &&
              (activeServiceIds db dNum w).contains t.service_id then
            db.routes.flatMap (fun r =>
              if t.route_id == r.route_id then
                [⟨st.arrival_time, t.trip_headsign, r.route_short_name, r.route_long_name⟩]
              else [])
          else [])
      else []))

/-- `route_schedule(stop_id)` of `gtfs_server.py`: an absent `date`
parameter yields `[]`; dashes are stripped; a `strptime` failure yields `[]`;
otherwise the schedule query runs with the stripped date string (numeric
affinity) and its weekday. -/
def route_schedule (db : ScheduleDB) (stopId : String)
    (dateArg : Option String) : List ScheduleResultRow :=
  match dateArg with
  | none => []
  | some ds =>
    let yyyymmdd := stripDashes ds
    match pyStrptimeYmd yyyymmdd.data with
    | none => []
    | some (y, m, d) =>
      scheduleQuery db stopId (digitsToNat yyyymmdd.data) (tm_wday y m d)

/-! ## Spec-side predicate for the calendar claim, and concrete instances -/

/-- Compact numeric form of a calendar date, as GTFS feeds store it. -/
def ymdNum (y m d : Nat) : Nat := y * 10000 + m * 100 + d

/-- The spec's wording of service activity (claim formulation, to be compared
with the embedded query `activeServiceIds`): a calendar row for `s` whose
inclusive `start_date`/`end_date` range contains the date, whose weekday flag
for the date's weekday is 1, with no type-2 exception row for the pair
`(s, date)`; or a type-1 exception row for `(s, date)`. -/
def claimActiveService (db : ScheduleDB) (y m d : Nat) (s : String) : Prop :=
  (∃ c ∈ db.calendar, c.service_id = s ∧
      c.start_date ≤ ymdNum y m d ∧ ymdNum y m d ≤ c.end_date ∧
      c.flag (tm_wday y m d) = 1 ∧
      ¬ ∃ cd ∈ db.calendar_dates,
          cd.service_id = s ∧ cd.date = ymdNum y m d ∧ cd.exception_type = 2)
  ∨ (∃ cd ∈ db.calendar_dates,
      cd.service_id = s ∧ cd.date = ymdNum y m d ∧ cd.exception_type = 1)

/-- A store whose `WKDY` service runs Monday–Friday through 2024 and whose
only exception row removes the unrelated service `OTHER` on 2024-07-04. -/
def c1DB : ScheduleDB :=
  { calendar := [⟨"WKDY", 1, 1, 1, 1, 1, 0, 0, 20240101, 20241231⟩],
    calendar_dates := [⟨"OTHER", 20240704, 2⟩],
    trips := [],
    stop_times := [],
    routes := [] }

/-- A well-formed zip archive containing no member files at all: every
mandatory GTFS file is absent. -/
def c2MissingArchive : Archive := ⟨[]⟩

/-- An archive with exactly the five mandatory files, each a header-only
CSV whose single column is in the table's schema. -/
def c2CompleteArchive : Archive :=
  ⟨[("agency.txt", [["agency_name"]]),
    ("stops.txt", [["stop_id"]]),
    ("routes.txt", [["route_id"]]),
    ("trips.txt", [["trip_id"]]),
    ("stop_times.txt", [["trip_id"]])]⟩

/-- `main`'s return value alone. -/
def mainReturnCode (a : Archive) (s : Store) : Except String Int :=
  (mainRun a s).map (·.1)

/-- A `stops.txt` header with two adjacent columns that are not in the
schema, and one well-formed data row. -/
def c3Lines : List (List String) :=
  [["stop_id", "bad1", "bad2", "stop_name"],
   ["s1", "12.5", "13.5", "Main St"]]

/-- An `agency.txt` stream of three lines: one header and two data rows. -/
def c4Lines : List (List String) :=
  [["agency_name", "agency_url", "agency_timezone"],
   ["A", "http", "UTC"],
   ["B", "http", "UTC"]]

/-- An empty schedule store, for witnesses. -/
def emptyScheduleDB : ScheduleDB := ⟨[], [], [], [], []⟩

/-! ## Theorems -/

/-- C1, counterexample.  The claim states that a type-2 exception excludes
only its own service and that the pattern branch requires
`start_date ≤ d ≤ end_date`.  In `c1DB`, service `WKDY` is pattern-included
on Thursday 2024-07-04 with no exception of its own, so the claim calls it
active; but the embedded query's type-2 subquery ignores `service_id`, so the
unrelated `(OTHER, 2024-07-04, 2)` row knocks out `WKDY` as well: `WKDY` is
not in the code's active-service set, refuting the claimed equivalence. -/
theorem c1_counterexample :
    claimActiveService c1DB 2024 7 4 "WKDY" ∧
    "WKDY" ∉ activeServiceIds c1DB (ymdNum 2024 7 4) (tm_wday 2024 7 4) := by
  constructor
  · left
    refine ⟨⟨"WKDY", 1, 1, 1, 1, 1, 0, 0, 20240101, 20241231⟩, by decide, rfl, by decide,
      by decide, by decide, by decide⟩
  · decide

/-- C1, amended.  For every store, date and service id: `s` is in the
schedule query's active-service set for date `d` iff EITHER (a) a calendar
row for `s` exists with `end_date` strictly greater than `d` (the start date
is never consulted, and a service is already inactive on its own end date)
whose weekday flag for `d`'s weekday is 1, and no `calendar_dates` row with
date `d` and exception type 2 exists for any service whatsoever; OR (b) a
`calendar_dates` row `(s, d, 1)` exists. -/
theorem c1_amended (db : ScheduleDB) (y m d : Nat) (s : String) :
    s ∈ activeServiceIds db (ymdNum y m d) (tm_wday y m d) ↔
      ((∃ c ∈ db.calendar, c.service_id = s ∧ ymdNum y m d < c.end_date ∧
          c.flag (tm_wday y m d) = 1 ∧
          ¬ ∃ cd ∈ db.calendar_dates, cd.date = ymdNum y m d ∧ cd.exception_type = 2)
      ∨ (∃ cd ∈ db.calendar_dates, cd.service_id = s ∧ cd.date = ymdNum y m d ∧
          cd.exception_type = 1)) := by
  simp [activeServiceIds, List.mem_filter, Bool.and_eq_true, decide_eq_true_eq,
    List.any_eq_true, beq_iff_eq, Bool.not_eq_true]
  aesop

/-- C2.  On an archive missing mandatory files (here: all of them), `main`
returns 1 with the destination store untouched — no table dropped, created
or inserted into — but the `__main__` guard discards that return value, so
the interpreter's exit code is 0, not the non-zero code the claim requires.
On an archive with all five mandatory files, `main` returns 0 and the exit
code is 0, as claimed. -/
theorem c2_exit_code_eval (s : Store) :
    mainRun c2MissingArchive s = .ok (1, s) ∧
    scriptExitCode c2MissingArchive s = 0 ∧
    mainReturnCode c2CompleteArchive [] = .ok 0 ∧
    scriptExitCode c2CompleteArchive [] = 0 := by
  refine ⟨rfl, rfl, ?_, ?_⟩ <;>
    simp [mainReturnCode, Except.map, scriptExitCode, mainRun, c2CompleteArchive, importTablesLoop,
      gtfs_table_pairs, insert_gtfs_table_rows, csvColumnsLoop, insertRowsLoop,
      create_gtfs_table, storeInsert, Archive.lookup, Archive.namelist,
      required_gtfs_files, sanitizeColumn, agencyColumns, stopsColumns, routesColumns,
      tripsColumns, stopTimesColumns]

/-- C3.  The claim says every undeclared header column is dropped and all
data rows still import.  With the two adjacent undeclared columns `bad1`,
`bad2` of `c3Lines`, the remove-while-iterating loop drops only `bad1`
(removing it shifts `bad2` under the iterator's index, which then skips it),
so the INSERT statement still names `bad2` and its first execution raises
`OperationalError` instead of importing the data row. -/
theorem c3_adjacent_columns_eval :
    csvColumnsLoop stopsColumns (c3Lines.head!.map sanitizeColumn) 0
        = ["stop_id", "bad2", "stop_name"] ∧
    insert_gtfs_table_rows stopsColumns c3Lines = .error "OperationalError" := by
  constructor
  · simp [c3Lines, csvColumnsLoop, sanitizeColumn, stopsColumns]
  · simp [c3Lines, insert_gtfs_table_rows, csvColumnsLoop, insertRowsLoop,
      sanitizeColumn, stopsColumns]

/-- C4, counterexample.  On a three-line CSV stream (header plus two data
rows) the import returns `reader.line_num = 3`, the line count with the
header included, not the claimed header-excluded count `3 - 1 = 2` (the two
data rows themselves are inserted correctly). -/
theorem c4_counterexample :
    insert_gtfs_table_rows agencyColumns c4Lines =
      .ok ⟨[[("agency_name", "A"), ("agency_url", "http"), ("agency_timezone", "UTC")],
            [("agency_name", "B"), ("agency_url", "http"), ("agency_timezone", "UTC")]], 3⟩ ∧
    c4Lines.length - 1 = 2 := by
  constructor
  · simp [c4Lines, insert_gtfs_table_rows, csvColumnsLoop, insertRowsLoop,
      sanitizeColumn, agencyColumns]
  · rfl

/-- Helper: the row-insertion loop inserts exactly one stored row per data
line whenever it succeeds. -/
theorem insertRowsLoop_length (sqlCols : List String) (validIndices : List Nat)
    (expected : List String) (ls : List (List String)) (rs : List InsRow)
    (h : insertRowsLoop sqlCols validIndices expected ls = .ok rs) :
    rs.length = ls.length := by
  induction ls generalizing rs with
  | nil =>
    simp [insertRowsLoop] at h
    simp [← h]
  | cons l ls ih =>
    rw [insertRowsLoop] at h
    split at h
    · exact absurd h (by simp)
    · split at h
      · exact absurd h (by simp)
      · revert h
        split
        · intro h; exact absurd h (by simp)
        · rename_i rs' heq
          intro h
          obtain rfl : _ :: rs' = rs := by
            simpa using h
          simp [ih rs' heq]

/-- C4, amended.  For every table schema and every CSV stream of N lines on
which the import succeeds, the returned count is N — the CSV line count with
the header included — while the number of rows actually inserted into the
table (hence the table's stored row count after a successful import into a
fresh table) is N − 1. -/
theorem c4_amended (expected : List String) (lines : List (List String))
    (r : ImportResult) (h : insert_gtfs_table_rows expected lines = .ok r) :
    r.returned = lines.length ∧ r.inserted.length = lines.length - 1 := by
  match lines, h with
  | header :: dataLines, h =>
    rw [insert_gtfs_table_rows] at h
    revert h
    split
    · intro h; exact absurd h (by simp)
    · rename_i rows heq
      intro h
      obtain rfl : ImportResult.mk rows (dataLines.length + 1) = r := by simpa using h
      simp [insertRowsLoop_length _ _ _ _ _ heq]

/-- C4, witness for the amended theorem: a two-line `agency.txt` stream
returns 2 and inserts 1 row. -/
theorem c4_amended_witness :
    (⟨[[("agency_name", "X")]], 2⟩ : ImportResult).returned
        = [["agency_name"], ["X"]].length ∧
    (⟨[[("agency_name", "X")]], 2⟩ : ImportResult).inserted.length
        = [["agency_name"], ["X"]].length - 1 :=
  c4_amended agencyColumns [["agency_name"], ["X"]] ⟨[[("agency_name", "X")]], 2⟩
    (by simp [insert_gtfs_table_rows, csvColumnsLoop, insertRowsLoop,
          sanitizeColumn, agencyColumns])

/-- C5.  A well-formed find request on a table declaring the verb: the SQL
text references the placeholder `:page`, the supplied parameter set is
`{limit, offset, search}`, and sqlite's binding check therefore raises
`ProgrammingError` — the find operation fails on every request instead of
returning the matching rows. -/
theorem c5_find_unbound_page_eval :
    route_find 500 (fun _ => [[("stop_name", "Main St")]]) "stops" "main" none none =
      .exception "ProgrammingError: missing binding" := rfl

/-- C6.  List-parameter handling: a missing `count` defaults to 25 (for any
`MAX_PAGE_SIZE` of at least 25) and a missing `page` to 0; a supplied count
parsing to `v` is clamped to `max 0 (min v MAX_PAGE_SIZE)` and a supplied
page to `max 0 v`, never rejected; a count or page failing `int` parsing
raises the invalid-parameter error (whether or not the other parameter is
well-formed); the list query then returns at most `count` rows after
skipping `page × count`, so `count = 0` yields the empty sequence. -/
theorem c6_list_pagination (M : Int) (h25 : 25 ≤ M) :
    (get_list_params M none none = .ok (25, 0)) ∧
    (∀ s v, parsePyInt s = some v →
      get_list_params M (some s) none = .ok (max 0 (min v M), 0)) ∧
    (∀ s v, parsePyInt s = some v →
      get_list_params M none (some s) = .ok (25, max 0 v)) ∧
    (∀ s pArg, parsePyInt s = none →
      get_list_params M (some s) pArg = .error "Invalid parameter value") ∧
    (∀ cArg s cnt, get_param_numeric cArg 0 (some M) 25 = .ok cnt →
      parsePyInt s = none →
      get_list_params M cArg (some s) = .error "Invalid parameter value") ∧
    (∀ (store : TableView) (t : String) cArg pArg cnt pg,
      t ∈ TABLES → "list" ∈ verbsOf t →
      get_list_params M cArg pArg = .ok (cnt, pg) →
      route_list M store t cArg pArg = .ok (paginate (store t) cnt pg)) ∧
    (∀ rows pg, paginate rows 0 pg = []) := by
  have hmin : min 25 M = 25 := min_eq_left h25
  refine ⟨?_, ?_, ?_, ?_, ?_, ?_, ?_⟩
  · simp [get_list_params, get_param_numeric, pyClamp, hmin]
  · intro s v h
    simp [get_list_params, get_param_numeric, pyClamp, h]
  · intro s v h
    simp [get_list_params, get_param_numeric, pyClamp, h, hmin]
  · intro s pArg h
    simp [get_list_params, get_param_numeric, h]
  · intro cArg s cnt hc hs
    unfold get_list_params
    rw [hc]
    simp [get_param_numeric, hs]
  · intro store t cArg pArg cnt pg h1 h2 h3
    simp [route_list, h1, h2, h3, execBindings, paginate]
  · intro rows pg
    simp [paginate]

/-- C6, witness: concrete instances of every clause at `MAX_PAGE_SIZE =
500`. -/
theorem c6_list_pagination_witness :
    (get_list_params 500 none none = .ok (25, 0)) ∧
    (get_list_params 500 (some "9999") none = .ok (max 0 (min 9999 500), 0)) ∧
    (get_list_params 500 none (some "7") = .ok (25, max 0 7)) ∧
    (get_list_params 500 (some "abc") none = .error "Invalid parameter value") ∧
    (get_list_params 500 (some "3") (some "xyz") = .error "Invalid parameter value") ∧
    (route_list 500 (fun _ => [[("agency_id", "1")]]) "agency" none none =
      .ok (paginate [[("agency_id", "1")]] 25 0)) ∧
    (paginate [[("agency_id", "1")]] 0 5 = []) := by
  have T := c6_list_pagination 500 (by norm_num)
  exact ⟨T.1, T.2.1 "9999" 9999 (by decide), T.2.2.1 "7" 7 (by decide),
    T.2.2.2.1 "abc" none (by decide),
    T.2.2.2.2.1 (some "3") "xyz" 3 (by rfl) (by decide),
    T.2.2.2.2.2.1 (fun _ => [[("agency_id", "1")]]) "agency" none none 25 0
      (by decide) (by decide) T.1,
    T.2.2.2.2.2.2 [[("agency_id", "1")]] 5⟩

/-- C7.  For every locate request whose four edges lie in the valid
latitude/longitude ranges (so the parameter clamps are the identity) and
whose count/page parameters parse: the result is exactly the stops strictly
inside the box, paginated like `list`; consequently every returned stop
satisfies the four strict inequalities, so a stop lying exactly on an edge
is excluded. -/
theorem c7_locate_strict (M : Int) (stops : List Stop) (hla lla hlo llo : ℚ)
    (ca pa : Option String) (cnt pg : Int)
    (h1 : -90 ≤ hla) (h2 : hla ≤ 90) (h3 : -90 ≤ lla) (h4 : lla ≤ 90)
    (h5 : -180 ≤ hlo) (h6 : hlo ≤ 180) (h7 : -180 ≤ llo) (h8 : llo ≤ 180)
    (hp : get_list_params M ca pa = .ok (cnt, pg)) :
    route_stops_locate M stops (some hla) (some lla) (some hlo) (some llo) ca pa =
      .ok (((stops.filter (inBox hla lla hlo llo)).drop (pg * cnt).toNat).take cnt.toNat) ∧
    ∀ s, s ∈ ((stops.filter (inBox hla lla hlo llo)).drop (pg * cnt).toNat).take cnt.toNat →
      lla < s.stop_lat ∧ s.stop_lat < hla ∧ llo < s.stop_lon ∧ s.stop_lon < hlo := by
  have e1 : clampLat hla = hla := by simp [clampLat, min_eq_left h2, max_eq_right h1]
  have e2 : clampLat lla = lla := by simp [clampLat, min_eq_left h4, max_eq_right h3]
  have e3 : clampLon hlo = hlo := by simp [clampLon, min_eq_left h6, max_eq_right h5]
  have e4 : clampLon llo = llo := by simp [clampLon, min_eq_left h8, max_eq_right h7]
  constructor
  · simp [route_stops_locate, hp, e1, e2, e3, e4]
  · intro s hs
    have hs2 := List.mem_of_mem_drop (List.mem_of_mem_take hs)
    have hbox := (List.mem_filter.mp hs2).2
    simp only [inBox, Bool.and_eq_true, decide_eq_true_eq, gt_iff_lt] at hbox
    exact ⟨hbox.1.1.2, hbox.1.1.1, hbox.2, hbox.1.2⟩

/-- C7, witness: a box `[40, 41] × [-89, -87]` around a stop lying exactly
on the lower latitude edge; the strict filter (which excludes that stop)
describes the response. -/
theorem c7_locate_strict_witness :
    route_stops_locate 500 [(⟨"edge", 40, -88⟩ : Stop)]
        (some 41) (some 40) (some (-87)) (some (-89)) none none =
      .ok ((([(⟨"edge", 40, -88⟩ : Stop)].filter (inBox 41 40 (-87) (-89))).drop
        (((0 : Int) * 25).toNat)).take ((25 : Int)).toNat) :=
  (c7_locate_strict 500 [⟨"edge", 40, -88⟩] 41 40 (-87) (-89) none none 25 0
    (by norm_num) (by norm_num) (by norm_num) (by norm_num)
    (by norm_num) (by norm_num) (by norm_num) (by norm_num) (by rfl)).1

/-- C8.  For every store, parameters and table name: a name outside the
registry yields the JSON error object with message "Table does not exist",
and a registered table lacking the requested verb (e.g. `calendar`, which
supports only `fetch`) yields "Verb not supported"; both branches return
before the query result is consulted, and the store — universally
quantified here — is never touched. -/
theorem c8_registry_errors (M : Int) (store : TableView) (ca pa : Option String) :
    (∀ t, t ∉ TABLES → route_list M store t ca pa = .jsonError "Table does not exist") ∧
    (∀ t, t ∈ TABLES → "list" ∉ verbsOf t →
      route_list M store t ca pa = .jsonError "Verb not supported") := by
  constructor
  · intro t h
    simp [route_list, h, NO_TABLE]
  · intro t h1 h2
    simp [route_list, h1, h2, NO_VERB]

/-- C8, witness: `/api/nosuch/list` and `/api/calendar/list`. -/
theorem c8_registry_errors_witness :
    route_list 500 (fun _ => []) "nosuch" none none = .jsonError "Table does not exist" ∧
    route_list 500 (fun _ => []) "calendar" none none = .jsonError "Verb not supported" :=
  ⟨(c8_registry_errors 500 (fun _ => []) none none).1 "nosuch" (by decide),
   (c8_registry_errors 500 (fun _ => []) none none).2 "calendar" (by decide) (by decide)⟩

/-- C9.  For every store and stop: a schedule request with no `date`
parameter returns the empty sequence, and so does a request whose date
string — after dashes are stripped — fails `strptime('%Y%m%d')`; neither
case raises or propagates an error. -/
theorem c9_schedule_degrades (db : ScheduleDB) (sid : String) :
    (route_schedule db sid none = []) ∧
    (∀ s, pyStrptimeYmd (stripDashes s).data = none → route_schedule db sid (some s) = []) := by
  constructor
  · rfl
  · intro s h
    simp [route_schedule, h]

/-- C9, witness: an absent date and the unparseable date "not-a-date". -/
theorem c9_schedule_degrades_witness :
    route_schedule emptyScheduleDB "S" none = [] ∧
    route_schedule emptyScheduleDB "S" (some "not-a-date") = [] :=
  ⟨(c9_schedule_degrades emptyScheduleDB "S").1,
   (c9_schedule_degrades emptyScheduleDB "S").2 "not-a-date" (by decide)⟩

/-- C10.  For every store and every table declaring `fetch`: when the table
is empty, `sql_query(...)[0]` calls `dict` on `fetchone()`'s `None` and the
route raises an unhandled `TypeError` (HTTP 500, not a JSON value and not
the structured error object); when the table is non-empty, it returns the
first row — fetch is total exactly under the non-emptiness precondition. -/
theorem c10_fetch_empty_table (store : TableView) (t : String)
    (h1 : t ∈ TABLES) (h2 : "fetch" ∈ verbsOf t) :
    (store t = [] → route_fetch store t = .exception "TypeError") ∧
    (∀ r rest, store t = r :: rest → route_fetch store t = .ok r) := by
  constructor
  · intro h
    simp [route_fetch, h1, h2, h, cursorGetFirst]
  · intro r rest h
    simp [route_fetch, h1, h2, h, cursorGetFirst]

/-- C10, witness: fetching the empty `calendar` table raises `TypeError`. -/
theorem c10_fetch_empty_table_witness :
    route_fetch (fun _ => []) "calendar" = .exception "TypeError" :=
  (c10_fetch_empty_table (fun _ => []) "calendar" (by decide) (by decide)).1 rfl

end GtfsRest
